import Mathlib

/-!
Verification of the NotifyMe reminder core against its design document.

The definitions below are a shallow embedding of `notifyme_app/timers.py`,
`notifyme_app/config.py` and `notifyme_app/constants.py`.  Timestamps and idle
durations are natural numbers of seconds.  One call of `timer_worker_step`
models one iteration of the `ReminderTimer._timer_worker` polling loop: the
wall clock `now` and the idle-probe reading are inputs, and the Boolean
component of the result records whether `self.callback()` was invoked during
that iteration.  JSON documents are modelled by the inductive type `JValue`;
a Python `dict` is an association list with distinct keys, in insertion order.
-/

namespace NotifyMe

/-- Association-list lookup, the model of Python `d.get(k)` / `d[k]` on a
`dict` whose entries are listed in insertion order. -/
def alookup {α : Type} (k : String) : List (String × α) → Option α
  | [] => none
  | kv :: rest => if kv.1 = k then some kv.2 else alookup k rest

/-- Association-list update, the model of Python `d[k] = v`: replace the
binding in place if the key is present, otherwise append it. -/
def aset {α : Type} : List (String × α) → String → α → List (String × α)
  | [], k, v => [(k, v)]
  | kv :: rest, k, v => if kv.1 = k then (k, v) :: rest else kv :: aset rest k v

/-! ## Timer model (notifyme_app/timers.py) -/

/-- State of a `ReminderTimer` (timers.py lines 20-44).  The `thread` field of
the source is represented by the ghost counter `spawn_count`, which counts how
many polling-loop threads `start` has spawned. -/
structure ReminderTimer where
  reminder_type : String
  interval_minutes : Nat
  offset_seconds : Nat
  is_running : Bool
  is_paused : Bool
  next_reminder_time : Option Nat
  idle_suppressed : Bool
  spawn_count : Nat
deriving DecidableEq

/-- Model of `ReminderTimer.__init__` (timers.py lines 20-44). -/
def ReminderTimer.init (reminder_type : String) (interval_minutes : Nat)
    (offset_seconds : Nat) : ReminderTimer :=
  { reminder_type := reminder_type
    interval_minutes := interval_minutes
    offset_seconds := offset_seconds
    is_running := false
    is_paused := false
    next_reminder_time := none
    idle_suppressed := false
    spawn_count := 0 }

/-- Model of `ReminderTimer.start` (timers.py lines 46-53): a no-op on a
running timer, otherwise it raises the flags and spawns the polling thread. -/
def ReminderTimer.start (t : ReminderTimer) : ReminderTimer :=
  if !t.is_running then
    { t with is_running := true, is_paused := false, spawn_count := t.spawn_count + 1 }
  else t

/-- Model of `ReminderTimer.stop` (timers.py lines 55-59). -/
def ReminderTimer.stop (t : ReminderTimer) : ReminderTimer :=
  { t with is_running := false, is_paused := false }

/-- Model of `ReminderTimer.pause` (timers.py lines 61-64). -/
def ReminderTimer.pause (t : ReminderTimer) : ReminderTimer :=
  { t with is_paused := true }

/-- Model of `ReminderTimer.resume` (timers.py lines 66-69). -/
def ReminderTimer.resume (t : ReminderTimer) : ReminderTimer :=
  { t with is_paused := false }

/-- Model of `ReminderTimer.snooze` (timers.py lines 71-77); `now` is the
value of `time.time()` at the call. -/
def ReminderTimer.snooze (t : ReminderTimer) (now : Nat) (minutes : Nat) : ReminderTimer :=
  if t.is_running && !t.is_paused then
    { t with next_reminder_time := some (now + minutes * 60) }
  else t

/-- Model of `ReminderTimer.update_interval` (timers.py lines 79-84). -/
def ReminderTimer.update_interval (t : ReminderTimer) (interval_minutes : Nat) : ReminderTimer :=
  { t with interval_minutes := interval_minutes }

/-- Model of `ReminderTimer._should_reset_due_to_idle` (timers.py lines 86-96).
The probe result `get_idle_seconds()` is the input `idle_seconds`, `none`
meaning unavailable; the method only reads state (its `idle_suppressed` test
guards a log line), so it is a pure predicate here. -/
def should_reset_due_to_idle (interval_seconds : Nat) (idle_seconds : Option Nat) : Bool :=
  match idle_seconds with
  | none => false
  | some idle => decide (interval_seconds ≤ idle)

/-- Model of one iteration of the `ReminderTimer._timer_worker` loop body
(timers.py lines 98-124).  The Boolean result is `true` exactly when
`self.callback()` was invoked during the iteration. -/
def timer_worker_step (t : ReminderTimer) (now : Nat) (idle_seconds : Option Nat) :
    ReminderTimer × Bool :=
  if t.is_running then
    if !t.is_paused then
      let interval_seconds := t.interval_minutes * 60
      if should_reset_due_to_idle interval_seconds idle_seconds then
        ({ t with idle_suppressed := true,
                  next_reminder_time := some (now + interval_seconds) }, false)
      else
        let t1 := if t.idle_suppressed then { t with idle_suppressed := false } else t
        let t2 :=
          match t1.next_reminder_time with
          | none =>
              { t1 with next_reminder_time := some (now + interval_seconds + t1.offset_seconds) }
          | some _ => t1
        match t2.next_reminder_time with
        | some nrt =>
            if nrt ≤ now then
              ({ t2 with next_reminder_time := some (now + interval_seconds) }, true)
            else (t2, false)
        | none => (t2, false)
    else (t, false)
  else (t, false)

/-- Sequence of polling-loop iterations: each pair gives the wall clock and the
idle-probe reading of that iteration, and the resulting list pairs the timer
state after each iteration with that iteration's fired flag. -/
def timer_worker_trace (t : ReminderTimer) : List (Nat × Option Nat) → List (ReminderTimer × Bool)
  | [] => []
  | p :: rest =>
      let s := timer_worker_step t p.1 p.2
      s :: timer_worker_trace s.1 rest

/-- Stagger offsets from `DEFAULT_OFFSETS_SECONDS` (constants.py lines 119-124),
accessed through `.get(reminder_type, 0)` as in `TimerManager.create_timer`. -/
def DEFAULT_OFFSETS_SECONDS (reminder_type : String) : Nat :=
  if reminder_type = "blink" then 30
  else if reminder_type = "water" then 10
  else if reminder_type = "walking" then 50
  else if reminder_type = "pranayama" then 20
  else 0

/-- State of `TimerManager` (timers.py lines 127-133): the registered timers
keyed by reminder type, plus the global pause flag. -/
structure TimerManager where
  timers : List (String × ReminderTimer)
  is_global_paused : Bool
deriving DecidableEq

/-- Model of `TimerManager.create_timer` (timers.py lines 135-145); it returns
the updated manager (the Python method also returns the created timer). -/
def TimerManager.create_timer (m : TimerManager) (reminder_type : String)
    (interval_minutes : Nat) : TimerManager :=
  { m with timers := aset m.timers reminder_type (ReminderTimer.init reminder_type interval_minutes (DEFAULT_OFFSETS_SECONDS reminder_type)) }

/-- Model of `TimerManager.start_all` (timers.py lines 147-152). -/
def TimerManager.start_all (m : TimerManager) : TimerManager :=
  { m with is_global_paused := false,
           timers := m.timers.map (fun kv => (kv.1, kv.2.start)) }

/-- Model of `TimerManager.stop_all` (timers.py lines 154-159). -/
def TimerManager.stop_all (m : TimerManager) : TimerManager :=
  { m with is_global_paused := false,
           timers := m.timers.map (fun kv => (kv.1, kv.2.stop)) }

/-- Model of `TimerManager.pause_all` (timers.py lines 161-166). -/
def TimerManager.pause_all (m : TimerManager) : TimerManager :=
  { m with is_global_paused := true,
           timers := m.timers.map (fun kv => (kv.1, kv.2.pause)) }

/-- Model of `TimerManager.resume_all` (timers.py lines 168-173). -/
def TimerManager.resume_all (m : TimerManager) : TimerManager :=
  { m with is_global_paused := false,
           timers := m.timers.map (fun kv => (kv.1, kv.2.resume)) }

/-- Model of `TimerManager.snooze_all` (timers.py lines 175-180); `now` is the
value of `time.time()` during the call. -/
def TimerManager.snooze_all (m : TimerManager) (now : Nat) (minutes : Nat) : TimerManager :=
  { m with timers := m.timers.map (fun kv => (kv.1, if !kv.2.is_paused then kv.2.snooze now minutes else kv.2)) }

/-- Model of `TimerManager.get_timer` (timers.py lines 182-184). -/
def TimerManager.get_timer (m : TimerManager) (reminder_type : String) : Option ReminderTimer :=
  alookup reminder_type m.timers

/-- Writing back the mutated state of a registered timer object; Python
mutates the shared `ReminderTimer` in place, which on the association list is
an update at its key. -/
def TimerManager.set_timer (m : TimerManager) (reminder_type : String)
    (t : ReminderTimer) : TimerManager :=
  { m with timers := aset m.timers reminder_type t }

/-- Shared shape of `pause_timer` / `resume_timer` / `toggle_timer_pause`
(timers.py lines 197-216): look the timer up and mutate it in place when it is
registered. -/
def TimerManager.modify_timer (m : TimerManager) (reminder_type : String)
    (f : ReminderTimer → ReminderTimer) : TimerManager :=
  match m.get_timer reminder_type with
  | some t => m.set_timer reminder_type (f t)
  | none => m

/-- Model of `TimerManager.pause_timer` (timers.py lines 197-201). -/
def TimerManager.pause_timer (m : TimerManager) (reminder_type : String) : TimerManager :=
  m.modify_timer reminder_type ReminderTimer.pause

/-- Model of `TimerManager.resume_timer` (timers.py lines 203-207). -/
def TimerManager.resume_timer (m : TimerManager) (reminder_type : String) : TimerManager :=
  m.modify_timer reminder_type ReminderTimer.resume

/-- Model of `TimerManager.toggle_timer_pause` (timers.py lines 209-216). -/
def TimerManager.toggle_timer_pause (m : TimerManager) (reminder_type : String) : TimerManager :=
  m.modify_timer reminder_type (fun t => if t.is_paused then t.resume else t.pause)

/-- Pause-related operations of the `TimerManager` interface, for quantifying
over arbitrary operation sequences. -/
inductive PauseOp where
  | pauseTimer (reminder_type : String)
  | resumeTimer (reminder_type : String)
  | pauseAll
  | resumeAll
  | togglePause (reminder_type : String)
deriving DecidableEq

/-- Interpretation of one pause-related operation on the manager. -/
def applyPauseOp (m : TimerManager) : PauseOp → TimerManager
  | .pauseTimer ty => m.pause_timer ty
  | .resumeTimer ty => m.resume_timer ty
  | .pauseAll => m.pause_all
  | .resumeAll => m.resume_all
  | .togglePause ty => m.toggle_timer_pause ty

/-- Interpretation of a sequence of pause-related operations. -/
def applyPauseOps (m : TimerManager) (ops : List PauseOp) : TimerManager :=
  ops.foldl applyPauseOp m

/-! ## Configuration model (notifyme_app/config.py, notifyme_app/constants.py) -/

/-- JSON values as handled by `json.load` / `json.dump`; an object keeps its
fields in insertion order, matching Python `dict`. -/
inductive JValue where
  | jnull : JValue
  | jbool : Bool → JValue
  | jint : Int → JValue
  | jstr : String → JValue
  | jarr : List JValue → JValue
  | jobj : List (String × JValue) → JValue

/-- Fields of a JSON object, the model of a parsed `dict`. -/
abbrev JObj := List (String × JValue)

/-- Model of Python `d.get(k, dflt)` on a `dict`. -/
def dget (d : JObj) (k : String) (dflt : JValue) : JValue :=
  (alookup k d).getD dflt

/-- Model of the Python membership test `k in d` on a `dict`. -/
def dcontains (d : JObj) (k : String) : Bool :=
  (alookup k d).isSome

/-- Model of Python `d1 | d2` on `dict`s: the keys of `d1` in order with the
values of `d2` where present, followed by the keys of `d2` absent from `d1`,
in order. -/
def dunion (d1 d2 : JObj) : JObj :=
  d1.map (fun kv => (kv.1, (alookup kv.1 d2).getD kv.2)) ++
    d2.filter (fun kv => (alookup kv.1 d1).isNone)

/-- View of a `JValue` as a `dict`; where the Python code applies a `dict`
operation (`|`, `.get`) to a non-`dict` value, it raises, so `none` here marks
the exception path. -/
def asObj : JValue → Option JObj
  | .jobj fields => some fields
  | _ => none

/-- Modelled from the spec: `ConfigSections` is referenced by `config.py` but
missing from `constants.py` under src/; section names follow spec sections 3,
4.4 and 6 (a top-level `global` section and a `reminders` section). -/
def ConfigSections.GLOBAL : String := "global"

/-- Modelled from the spec: the reminders section name, see
`ConfigSections.GLOBAL`. -/
def ConfigSections.REMINDERS : String := "reminders"

/-- Modelled from the spec: `ReminderConfigFields` is referenced by
`config.py` but missing from `constants.py` under src/; field names follow
spec section 3 (`interval_minutes`, `sound_enabled`, `tts_enabled`, `hidden`),
matching the suffixes of the legacy flat keys in `ConfigKeys`. -/
def ReminderConfigFields.INTERVAL_MINUTES : String := "interval_minutes"

/-- Modelled from the spec: see `ReminderConfigFields.INTERVAL_MINUTES`. -/
def ReminderConfigFields.SOUND_ENABLED : String := "sound_enabled"

/-- Modelled from the spec: see `ReminderConfigFields.INTERVAL_MINUTES`. -/
def ReminderConfigFields.TTS_ENABLED : String := "tts_enabled"

/-- Modelled from the spec: see `ReminderConfigFields.INTERVAL_MINUTES`. -/
def ReminderConfigFields.HIDDEN : String := "hidden"

/-- Reminder types of `ALL_REMINDER_TYPES` (constants.py lines 103-108). -/
def ALL_REMINDER_TYPES : List String := ["blink", "walking", "water", "pranayama"]

/-- Default intervals from `DEFAULT_INTERVALS_MIN` (constants.py lines
111-116); the dictionary is only ever indexed with the four reminder types. -/
def DEFAULT_INTERVALS_MIN (reminder_type : String) : Int :=
  if reminder_type = "blink" then 20
  else if reminder_type = "walking" then 60
  else if reminder_type = "water" then 30
  else 120

/-- Model of `ConfigManager._get_default_global_config` (config.py lines
41-50), with the `ConfigKeys` string values from constants.py lines 20-35. -/
def get_default_global_config : JObj :=
  [("sound_enabled", .jbool false),
   ("tts_enabled", .jbool true),
   ("tts_language", .jstr "auto"),
   ("last_run", .jnull)]

/-- Model of `ConfigManager._get_default_reminder_config` (config.py lines
52-59). -/
def get_default_reminder_config (reminder_type : String) : JObj :=
  [(ReminderConfigFields.INTERVAL_MINUTES, .jint (DEFAULT_INTERVALS_MIN reminder_type)),
   (ReminderConfigFields.SOUND_ENABLED, .jbool true),
   (ReminderConfigFields.TTS_ENABLED, .jbool true),
   (ReminderConfigFields.HIDDEN, .jbool false)]

/-- Model of `ConfigManager._get_default_reminders_config` (config.py lines
61-66). -/
def get_default_reminders_config : JObj :=
  ALL_REMINDER_TYPES.map (fun rt => (rt, JValue.jobj (get_default_reminder_config rt)))

/-- Model of `ConfigManager._get_default_config` (config.py lines 34-39). -/
def get_default_config : JObj :=
  [(ConfigSections.GLOBAL, .jobj get_default_global_config),
   (ConfigSections.REMINDERS, .jobj get_default_reminders_config)]

/-- Model of `ConfigManager._legacy_reminder_key` (config.py lines 191-193). -/
def legacy_reminder_key (reminder_type suffix : String) : String :=
  reminder_type ++ "_" ++ suffix

/-- Model of the legacy-global loop of `_normalize_config` (config.py lines
90-100): copy each of the four global keys that is present in the flat file. -/
def legacy_global (config : JObj) : JObj :=
  (["sound_enabled", "tts_enabled", "tts_language", "last_run"].filter
      (fun k => dcontains config k)).map (fun k => (k, dget config k .jnull))

/-- Model of one entry of the legacy-reminders loop of `_normalize_config`
(config.py lines 102-120). -/
def legacy_reminder (config : JObj) (rt : String) : JObj :=
  [(ReminderConfigFields.INTERVAL_MINUTES,
      dget config (legacy_reminder_key rt "interval_minutes") (.jint (DEFAULT_INTERVALS_MIN rt))),
   (ReminderConfigFields.SOUND_ENABLED,
      dget config (legacy_reminder_key rt "sound_enabled") (.jbool true)),
   (ReminderConfigFields.TTS_ENABLED,
      dget config (legacy_reminder_key rt "tts_enabled") (.jbool true)),
   (ReminderConfigFields.HIDDEN,
      dget config (legacy_reminder_key rt "hidden") (.jbool false))]

/-- Legacy-reminders loop of `_normalize_config` over a list of reminder
types (config.py lines 102-120). -/
def legacy_reminders (config : JObj) : List String → JObj
  | [] => []
  | rt :: rest => (rt, .jobj (legacy_reminder config rt)) :: legacy_reminders config rest

/-- Defaults-merging loop of `_normalize_config` (config.py lines 125-129)
over a list of reminder types: for each type, look its record up in the
reminders section (defaulting to `{}`) and merge it over the per-type default
record; a non-`dict` record raises, hence the `Option`. -/
def normalize_reminders : List String → JObj → Option JObj
  | [], _ => some []
  | rt :: rest, rc =>
      (asObj (dget rc rt (.jobj []))).bind (fun cur =>
        (normalize_reminders rest rc).map (fun tail =>
          (rt, JValue.jobj (dunion (get_default_reminder_config rt) cur)) :: tail))

/-- The section test of `_normalize_config` (config.py line 86): the file is
in the sectioned layout when either section key is present. -/
def config_is_sectioned (config : JObj) : Bool :=
  dcontains config ConfigSections.GLOBAL || dcontains config ConfigSections.REMINDERS

/-- The `global_config` local of `_normalize_config` (config.py lines 87,
90-100), kept as a raw value because a sectioned file may carry a non-`dict`
there. -/
def global_part (config : JObj) : JValue :=
  if config_is_sectioned config then dget config ConfigSections.GLOBAL (.jobj [])
  else .jobj (legacy_global config)

/-- The `reminders_config` local of `_normalize_config` (config.py lines 88,
102-120). -/
def reminders_part (config : JObj) : JValue :=
  if config_is_sectioned config then dget config ConfigSections.REMINDERS (.jobj [])
  else .jobj (legacy_reminders config ALL_REMINDER_TYPES)

/-- Model of `ConfigManager._normalize_config` (config.py lines 84-134).
`none` is the exception path (a section value that is not a `dict`), which
`_load_config` turns into the default configuration. -/
def normalize_config (config : JObj) : Option JObj :=
  match asObj (global_part config), asObj (reminders_part config) with
  | some g, some rc =>
      match normalize_reminders ALL_REMINDER_TYPES rc with
      | some normalized =>
          some [(ConfigSections.GLOBAL, .jobj (dunion get_default_global_config g)),
                (ConfigSections.REMINDERS, .jobj normalized)]
      | none => none
  | _, _ => none

/-- Model of `ConfigManager.save_config` (config.py lines 136-142): the
serialized file content is identified with the JSON document it denotes,
since `json.dump` followed by `json.load` is the identity on this model. -/
def save_config (c : JObj) : JValue :=
  .jobj c

/-- Model of `ConfigManager._load_config` (config.py lines 68-82): `none`
stands for a missing or unparseable file; a parseable file whose top level is
not an object, or whose sections make `_normalize_config` raise, falls into
the `except` branch and yields the default configuration. -/
def load_config (file : Option JValue) : JObj :=
  match file with
  | none => get_default_config
  | some raw =>
      match raw with
      | .jobj d => (normalize_config d).getD get_default_config
      | _ => get_default_config

/-! ## Concrete scenario states -/

/-- Blink timer with a one-minute interval after `start()`. -/
def tBlinkStarted : ReminderTimer := (ReminderTimer.init "blink" 1 30).start

/-- The blink timer after its first polling iteration at `now = 0` with the
idle probe unavailable, which schedules `next_reminder_time = 90`. -/
def tBlinkSched : ReminderTimer := (timer_worker_step tBlinkStarted 0 none).1

/-- Manager holding the scheduled blink timer, built through `create_timer`
and `start_all` with the polled timer state written back. -/
def mC1 : TimerManager :=
  (((TimerManager.mk [] false).create_timer "blink" 1).start_all).set_timer "blink" tBlinkSched

/-- The manager `mC1` after `pause_all()` followed by `resume_timer("blink")`. -/
def mC1b : TimerManager :=
  applyPauseOps mC1 [PauseOp.pauseAll, PauseOp.resumeTimer "blink"]

/-- The blink timer as registered in `mC1b`: paused by `pause_all`, then
individually resumed. -/
def tC1 : ReminderTimer := (tBlinkSched.pause).resume

/-- Timer of the section-8 scenario: one-minute interval, zero offset,
running, with no fire scheduled yet. -/
def tC2 : ReminderTimer :=
  { reminder_type := "blink", interval_minutes := 1, offset_seconds := 0,
    is_running := true, is_paused := false, next_reminder_time := none,
    idle_suppressed := false, spawn_count := 1 }

/-- First poll of the scenario, at `now = 1000` with the idle probe
unavailable. -/
def tC2a : ReminderTimer × Bool := timer_worker_step tC2 1000 none

/-- Second poll of the scenario, at `now = 1061`. -/
def tC2b : ReminderTimer × Bool := timer_worker_step tC2a.1 1061 none

/-- Manager whose water timer is running and then individually paused. -/
def mC10 : TimerManager :=
  applyPauseOps (((TimerManager.mk [] false).create_timer "water" 30).start_all)
    [PauseOp.pauseTimer "water"]

/-- The water timer of `mC10`: started, then paused while running. -/
def tC10 : ReminderTimer := ((ReminderTimer.init "water" 30 10).start).pause

/-! ## Helper lemmas about dictionaries -/

theorem alookup_append_of_isSome {α : Type} (k : String) (l1 l2 : List (String × α))
    (h : (alookup k l1).isSome) : alookup k (l1 ++ l2) = alookup k l1 := by
  induction l1 with
  | nil => simp [alookup] at h
  | cons kv rest ih =>
      by_cases hk : kv.1 = k
      · simp [alookup, hk]
      · simp only [alookup, hk, if_false, List.cons_append] at h ⊢
        exact ih h

theorem alookup_append_of_isNone {α : Type} (k : String) (l1 l2 : List (String × α))
    (h : alookup k l1 = none) : alookup k (l1 ++ l2) = alookup k l2 := by
  induction l1 with
  | nil => simp
  | cons kv rest ih =>
      by_cases hk : kv.1 = k
      · simp [alookup, hk] at h
      · simp only [alookup, hk, if_false, List.cons_append] at h ⊢
        exact ih h

theorem alookup_isSome_of_mem {α : Type} {k : String} {v : α} {l : List (String × α)}
    (h : (k, v) ∈ l) : (alookup k l).isSome := by
  induction l with
  | nil => simp at h
  | cons kv rest ih =>
      rcases List.mem_cons.mp h with h | h
      · simp [alookup, ← h]
      · by_cases hk : kv.1 = k
        · simp [alookup, hk]
        · simp only [alookup, hk, if_false]
          exact ih h

/-- Looking a key of `a` up in the overridden copy of `a` that forms the left
half of `dunion a b` yields the value of `b` when present, else the value of
`a`; the keys of `a` must be distinct. -/
theorem alookup_map_override {α : Type} (b : List (String × α)) :
    ∀ (a : List (String × α)) (k : String) (v : α),
      (a.map Prod.fst).Nodup → (k, v) ∈ a →
      alookup k (a.map (fun kv => (kv.1, (alookup kv.1 b).getD kv.2)))
        = some ((alookup k b).getD v) := by
  intro a
  induction a with
  | nil => intro k v _ hm; simp at hm
  | cons kv rest ih =>
      intro k v hnd hm
      rcases List.mem_cons.mp hm with h | h
      · have hk : kv.1 = k := by rw [← h]
        have hv : kv.2 = v := by rw [← h]
        simp [alookup, hk, hv]
      · have hk : kv.1 ≠ k := by
          intro hkk
          have : k ∈ rest.map Prod.fst := List.mem_map_of_mem Prod.fst h
          rw [List.map_cons, List.nodup_cons, hkk] at hnd
          exact hnd.1 this
        simp only [List.map_cons, alookup, hk, if_false]
        exact ih k v (by rw [List.map_cons, List.nodup_cons] at hnd; exact hnd.2) h

/-- Lookup of a key of `a` in `dunion a b`. -/
theorem dunion_alookup_left (a b : JObj) (k : String) (v : JValue)
    (hnd : (a.map Prod.fst).Nodup) (hm : (k, v) ∈ a) :
    alookup k (dunion a b) = some ((alookup k b).getD v) := by
  unfold dunion
  rw [alookup_append_of_isSome]
  · exact alookup_map_override b a k v hnd hm
  · rw [alookup_map_override b a k v hnd hm]; rfl

/-- The right half of `dunion a (dunion a b)` filters down to the right half
of `dunion a b`. -/
theorem dunion_filter_right (a b : JObj) :
    (dunion a b).filter (fun kv => (alookup kv.1 a).isNone)
      = b.filter (fun kv => (alookup kv.1 a).isNone) := by
  unfold dunion
  rw [List.filter_append]
  have h1 : (a.map (fun kv => (kv.1, (alookup kv.1 b).getD kv.2))).filter
      (fun kv => (alookup kv.1 a).isNone) = [] := by
    rw [List.filter_eq_nil_iff]
    intro x hx
    obtain ⟨kv, hkv, hxeq⟩ := List.mem_map.mp hx
    have hk : x.1 = kv.1 := by rw [← hxeq]
    have : (alookup kv.1 a).isSome := alookup_isSome_of_mem (by simpa using hkv)
    simp [hk, Option.isNone, Option.isSome] at this ⊢
    cases hl : alookup kv.1 a with
    | none => rw [hl] at this; simp at this
    | some w => simp
  rw [h1, List.nil_append, List.filter_filter]
  simp

/-- Merging the defaults over an already-merged dictionary changes nothing:
`a | (a | b) = a | b` when the keys of `a` are distinct.  This is the engine
of normalization idempotence. -/
theorem dunion_absorb (a b : JObj) (hnd : (a.map Prod.fst).Nodup) :
    dunion a (dunion a b) = dunion a b := by
  conv_lhs => rw [dunion]
  rw [dunion_filter_right]
  have hmap : a.map (fun kv => (kv.1, (alookup kv.1 (dunion a b)).getD kv.2))
      = a.map (fun kv => (kv.1, (alookup kv.1 b).getD kv.2)) := by
    apply List.map_congr_left
    intro kv hkv
    rw [dunion_alookup_left a b kv.1 kv.2 hnd (by simpa using hkv)]
    rfl
  rw [hmap]
  rfl

/-! ## Helper lemmas about normalization -/

/-- Keys of the per-type default record are distinct. -/
theorem default_reminder_keys_nodup (rt : String) :
    ((get_default_reminder_config rt).map Prod.fst).Nodup := by
  show (["interval_minutes", "sound_enabled", "tts_enabled", "hidden"] : List String).Nodup
  decide

/-- Keys of the global default record are distinct. -/
theorem default_global_keys_nodup :
    ((get_default_global_config).map Prod.fst).Nodup := by
  show (["sound_enabled", "tts_enabled", "tts_language", "last_run"] : List String).Nodup
  decide

/-- Entries whose key is not consulted can be dropped from the reminders
section during the defaults-merging loop. -/
theorem normalize_reminders_skip (l : List String) (k : String) (v : JValue) (tail : JObj)
    (hk : k ∉ l) :
    normalize_reminders l ((k, v) :: tail) = normalize_reminders l tail := by
  induction l with
  | nil => rfl
  | cons rt rest ih =>
      have hne : k ≠ rt := fun h => hk (h ▸ List.mem_cons_self rt rest)
      have hrest : k ∉ rest := fun h => hk (List.mem_cons_of_mem rt h)
      simp only [normalize_reminders, dget, alookup, hne, if_false, ih hrest]

/-- The defaults-merging loop is idempotent: run on its own output it
reproduces it, when the processed reminder types are distinct. -/
theorem normalize_reminders_idem (l : List String) (rc R : JObj) (hnd : l.Nodup)
    (h : normalize_reminders l rc = some R) :
    normalize_reminders l R = some R := by
  induction l generalizing R with
  | nil =>
      simp only [normalize_reminders] at h
      rw [← Option.some.inj h]
      rfl
  | cons rt rest ih =>
      simp only [normalize_reminders, Option.bind_eq_some, Option.map_eq_some'] at h
      obtain ⟨cur, hcur, tail, htail, hR⟩ := h
      rw [List.nodup_cons] at hnd
      subst hR
      simp only [normalize_reminders, dget, alookup, if_pos rfl, Option.getD_some, asObj,
        Option.bind_eq_some, Option.map_eq_some']
      refine ⟨dunion (get_default_reminder_config rt) cur, rfl, tail, ?_, ?_⟩
      · rw [normalize_reminders_skip rest rt _ tail hnd.1]
        exact ih tail hnd.2 htail
      · rw [dunion_absorb _ _ (default_reminder_keys_nodup rt)]

/-- Lookup of each processed type in the output of the defaults-merging loop:
it is an object extending the per-type defaults. -/
theorem normalize_reminders_lookup (l : List String) (rc R : JObj) (hnd : l.Nodup)
    (h : normalize_reminders l rc = some R) :
    ∀ rt ∈ l, ∃ cur, alookup rt R
      = some (.jobj (dunion (get_default_reminder_config rt) cur)) := by
  induction l generalizing R with
  | nil => intro rt hrt; simp at hrt
  | cons rt0 rest ih =>
      simp only [normalize_reminders, Option.bind_eq_some, Option.map_eq_some'] at h
      obtain ⟨cur, hcur, tail, htail, hR⟩ := h
      rw [List.nodup_cons] at hnd
      subst hR
      intro rt hrt
      rcases List.mem_cons.mp hrt with hrt | hrt
      · subst hrt
        exact ⟨cur, by simp [alookup]⟩
      · have hne : rt0 ≠ rt := fun h2 => hnd.1 (h2 ▸ hrt)
        simp only [alookup, hne, if_false]
        exact ih tail hnd.2 htail rt hrt

/-- The defaults-merging loop succeeds whenever every present reminder-type
record is an object. -/
theorem normalize_reminders_isSome (l : List String) (rc : JObj)
    (h : ∀ rt ∈ l, (asObj (dget rc rt (.jobj []))).isSome) :
    (normalize_reminders l rc).isSome := by
  induction l with
  | nil => rfl
  | cons rt rest ih =>
      obtain ⟨cur, hcur⟩ := Option.isSome_iff_exists.mp (h rt (List.mem_cons_self rt rest))
      obtain ⟨tail, htail⟩ := Option.isSome_iff_exists.mp
        (ih (fun q hq => h q (List.mem_cons_of_mem rt hq)))
      simp [normalize_reminders, hcur, htail]

/-- Shape of every successful normalization result: a two-section document
whose global section extends the global defaults and whose reminders section
is an output of the defaults-merging loop. -/
theorem normalize_config_shape (d c : JObj) (h : normalize_config d = some c) :
    ∃ g rc R, asObj (global_part d) = some g ∧ asObj (reminders_part d) = some rc ∧
      normalize_reminders ALL_REMINDER_TYPES rc = some R ∧
      c = [(ConfigSections.GLOBAL, .jobj (dunion get_default_global_config g)),
           (ConfigSections.REMINDERS, .jobj R)] := by
  unfold normalize_config at h
  cases hg : asObj (global_part d) with
  | none => rw [hg] at h; exact absurd h (by simp)
  | some g =>
      cases hrc : asObj (reminders_part d) with
      | none => rw [hg, hrc] at h; exact absurd h (by simp)
      | some rc =>
          rw [hg, hrc] at h
          dsimp only at h
          cases hR : normalize_reminders ALL_REMINDER_TYPES rc with
          | none => rw [hR] at h; exact absurd h (by simp)
          | some R =>
              rw [hR] at h
              dsimp only at h
              exact ⟨g, rc, R, rfl, rfl, hR, (Option.some.inj h).symm⟩

/-- Normalization is idempotent on its own outputs. -/
theorem normalize_config_idem (d c : JObj) (h : normalize_config d = some c) :
    normalize_config c = some c := by
  obtain ⟨g, rc, R, _, _, hR, hc⟩ := normalize_config_shape d c h
  subst hc
  have hsec : config_is_sectioned
      [(ConfigSections.GLOBAL, JValue.jobj (dunion get_default_global_config g)),
       (ConfigSections.REMINDERS, JValue.jobj R)] = true := by
    simp [config_is_sectioned, dcontains, alookup]
  have hgp : global_part
      [(ConfigSections.GLOBAL, JValue.jobj (dunion get_default_global_config g)),
       (ConfigSections.REMINDERS, JValue.jobj R)]
      = .jobj (dunion get_default_global_config g) := by
    simp [global_part, hsec, dget, alookup]
  have hrp : reminders_part
      [(ConfigSections.GLOBAL, JValue.jobj (dunion get_default_global_config g)),
       (ConfigSections.REMINDERS, JValue.jobj R)] = .jobj R := by
    have hne : ConfigSections.GLOBAL ≠ ConfigSections.REMINDERS := by decide
    simp [reminders_part, hsec, dget, alookup, hne]
  rw [normalize_config, hgp, hrp]
  simp only [asObj]
  rw [normalize_reminders_idem ALL_REMINDER_TYPES rc R (by decide) hR,
    dunion_absorb _ _ default_global_keys_nodup]

/-! ## Helper lemmas about the polling loop -/

/-- Facts available whenever one polling iteration invoked the callback: the
timer was running and not individually paused, and the iteration reset
`next_reminder_time` to exactly `now + interval_seconds`. -/
theorem timer_worker_step_fired (t : ReminderTimer) (now : Nat) (idle_seconds : Option Nat)
    (h : (timer_worker_step t now idle_seconds).2 = true) :
    t.is_running = true ∧ t.is_paused = false ∧
      (timer_worker_step t now idle_seconds).1.next_reminder_time
        = some (now + t.interval_minutes * 60) := by
  by_cases hr : t.is_running
  · by_cases hp : t.is_paused
    · simp [timer_worker_step, hr, hp] at h
    · refine ⟨hr, by simpa using hp, ?_⟩
      by_cases hi : should_reset_due_to_idle (t.interval_minutes * 60) idle_seconds
      · simp [timer_worker_step, hr, hp, hi] at h
      · by_cases hs : t.idle_suppressed
        · cases hn : t.next_reminder_time with
          | none =>
              by_cases hfire : now + t.interval_minutes * 60 + t.offset_seconds ≤ now
              · simp [timer_worker_step, hr, hp, hi, hs, hn, hfire]
              · simp [timer_worker_step, hr, hp, hi, hs, hn, hfire] at h
          | some nrt =>
              by_cases hfire : nrt ≤ now
              · simp [timer_worker_step, hr, hp, hi, hs, hn, hfire]
              · simp [timer_worker_step, hr, hp, hi, hs, hn, hfire] at h
        · cases hn : t.next_reminder_time with
          | none =>
              by_cases hfire : now + t.interval_minutes * 60 + t.offset_seconds ≤ now
              · simp [timer_worker_step, hr, hp, hi, hs, hn, hfire]
              · simp [timer_worker_step, hr, hp, hi, hs, hn, hfire] at h
          | some nrt =>
              by_cases hfire : nrt ≤ now
              · simp [timer_worker_step, hr, hp, hi, hs, hn, hfire]
              · simp [timer_worker_step, hr, hp, hi, hs, hn, hfire] at h
  · simp [timer_worker_step, hr] at h

/-- Evaluation of one polling iteration taken through the idle-suppression
branch: no fire, `idle_suppressed` set, `next_reminder_time` pushed to
`now + interval_seconds`. -/
theorem timer_worker_step_idle_reset (t : ReminderTimer) (now : Nat) (idle_seconds : Option Nat)
    (hr : t.is_running = true) (hp : t.is_paused = false)
    (hi : should_reset_due_to_idle (t.interval_minutes * 60) idle_seconds = true) :
    timer_worker_step t now idle_seconds =
      ({ t with idle_suppressed := true,
                next_reminder_time := some (now + t.interval_minutes * 60) }, false) := by
  simp [timer_worker_step, hr, hp, hi]

/-! ## Claim theorems -/

/-- C1 (counterexample): the claim fails as stated.  Starting from a running
blink timer with a scheduled fire, the sequence `pause_all()` then
`resume_timer("blink")` leaves `is_global_paused` true while the blink
timer's own `is_paused` flag is false, and the next polling iteration invokes
the callback even though the global pause flag is set — the polling loop
never consults `is_global_paused`. -/
theorem global_pause_not_consulted_cex :
    mC1b.is_global_paused = true ∧
      mC1b.get_timer "blink" = some tC1 ∧
      tC1.is_paused = false ∧
      (timer_worker_step tC1 200 none).2 = true := by
  decide

/-- C1 (amended): for every sequence of pause, resume, pause-all, resume-all
and toggle operations, the callback is never invoked during a polling
iteration at which the polled timer's own `is_paused` flag is true; the
manager's `is_global_paused` flag on its own does not block firing. -/
theorem fired_not_paused_after_ops (m0 : TimerManager) (ops : List PauseOp)
    (reminder_type : String) (t : ReminderTimer) (now : Nat) (idle_seconds : Option Nat)
    (_hget : (applyPauseOps m0 ops).get_timer reminder_type = some t)
    (hfired : (timer_worker_step t now idle_seconds).2 = true) :
    t.is_paused = false :=
  (timer_worker_step_fired t now idle_seconds hfired).2.1

/-- C1 (witness): the amended theorem applied to the scheduled blink timer of
`mC1` with the empty operation sequence, polled at `now = 200`. -/
theorem fired_not_paused_after_ops_witness :
    (applyPauseOps mC1 []).get_timer "blink" = some tBlinkSched ∧
      (timer_worker_step tBlinkSched 200 none).2 = true ∧
      tBlinkSched.is_paused = false :=
  ⟨by decide, by decide,
    fired_not_paused_after_ops mC1 [] "blink" tBlinkSched 200 none (by decide) (by decide)⟩

/-- C2 (counterexample): with `interval_seconds = 60`, `offset_seconds = 0`
and `now = 1000`, the first poll schedules `next_fire_at = 1060` without
firing; the poll at `now = 1061` fires, but resets `next_fire_at` to
`1061 + 60 = 1121`, not to `1120` as the claim states — the code anchors the
reset at the firing poll's clock, not at the missed tick. -/
theorem second_poll_next_fire_cex :
    tC2a.2 = false ∧ tC2a.1.next_reminder_time = some 1060 ∧
      tC2b.2 = true ∧ tC2b.1.next_reminder_time ≠ some 1120 := by
  decide

/-- C2 (amended): in the same scenario, the poll at `now = 1061` invokes the
callback exactly once and resets `next_fire_at` to `1121`, which is
`now + interval_seconds` for the firing poll. -/
theorem second_poll_next_fire_amended :
    tC2a.2 = false ∧ tC2a.1.next_reminder_time = some 1060 ∧
      tC2b.2 = true ∧ tC2b.1.next_reminder_time = some 1121 := by
  decide

/-- C3: whenever a polling iteration invokes the callback at poll time `now`,
it resets `next_reminder_time` so that it exceeds `now` by exactly
`interval_seconds = interval_minutes * 60`; fires polled at exact tick
boundaries therefore stay `interval_seconds` apart with no accumulated
drift. -/
theorem fire_resets_next_exact (t : ReminderTimer) (now : Nat) (idle_seconds : Option Nat)
    (hfired : (timer_worker_step t now idle_seconds).2 = true) :
    (timer_worker_step t now idle_seconds).1.next_reminder_time
      = some (now + t.interval_minutes * 60) :=
  (timer_worker_step_fired t now idle_seconds hfired).2.2

/-- C3 (witness): the scheduled blink timer fires when polled at `now = 200`
and its next fire is reset to `200 + 60`. -/
theorem fire_resets_next_exact_witness :
    (timer_worker_step tBlinkSched 200 none).2 = true ∧
      (timer_worker_step tBlinkSched 200 none).1.next_reminder_time
        = some (200 + tBlinkSched.interval_minutes * 60) :=
  ⟨by decide, fire_resets_next_exact tBlinkSched 200 none (by decide)⟩

/-- C4: over any run of polling iterations of a running, unpaused timer in
which the idle probe is available and reports at least `interval_seconds` of
idle time at every poll, no iteration invokes the callback, `idle_suppressed`
is true after every iteration, and every iteration pushes
`next_reminder_time` to that iteration's `now + interval_seconds` instead of
firing. -/
theorem idle_suppression_run (t : ReminderTimer) (polls : List (Nat × Option Nat))
    (hr : t.is_running = true) (hp : t.is_paused = false)
    (hidle : ∀ p ∈ polls, ∃ s, p.2 = some s ∧ t.interval_minutes * 60 ≤ s) :
    ∀ pe ∈ polls.zip (timer_worker_trace t polls),
      pe.2.2 = false ∧ pe.2.1.idle_suppressed = true ∧
        pe.2.1.next_reminder_time = some (pe.1.1 + t.interval_minutes * 60) := by
  induction polls generalizing t with
  | nil => intro pe hpe; simp [timer_worker_trace] at hpe
  | cons p rest ih =>
      obtain ⟨s, hps, hslen⟩ := hidle p (List.mem_cons_self p rest)
      have hreset : should_reset_due_to_idle (t.interval_minutes * 60) p.2 = true := by
        rw [hps]; simpa [should_reset_due_to_idle] using hslen
      have hstep := timer_worker_step_idle_reset t p.1 p.2 hr hp hreset
      intro pe hpe
      rw [timer_worker_trace, hstep] at hpe
      simp only [List.zip_cons_cons, List.mem_cons] at hpe
      rcases hpe with hpe | hpe
      · subst hpe; exact ⟨rfl, rfl, rfl⟩
      · exact ih { t with idle_suppressed := true,
                          next_reminder_time := some (p.1 + t.interval_minutes * 60) }
          hr hp (fun q hq => hidle q (List.mem_cons_of_mem p hq)) pe hpe

/-- C4 (witness): a single poll of the scheduled blink timer at `now = 100`
with sixty seconds of reported idle time fires nothing, sets
`idle_suppressed`, and pushes the next fire to `100 + 60`. -/
theorem idle_suppression_run_witness :
    (timer_worker_step tBlinkSched 100 (some 60)).2 = false ∧
      (timer_worker_step tBlinkSched 100 (some 60)).1.idle_suppressed = true ∧
      (timer_worker_step tBlinkSched 100 (some 60)).1.next_reminder_time
        = some (100 + tBlinkSched.interval_minutes * 60) :=
  idle_suppression_run tBlinkSched [(100, some 60)] (by decide) (by decide)
    (by intro p hp; rw [List.mem_singleton] at hp; subst hp; exact ⟨60, rfl, by decide⟩)
    ((100, some 60), timer_worker_step tBlinkSched 100 (some 60))
    (by rw [timer_worker_trace]; exact List.mem_singleton.mpr rfl)

/-- C5: `snooze(minutes)` changes nothing unless the timer is running and not
individually paused, in which case it sets `next_reminder_time` to
`now + minutes * 60`; consequently `snooze_all(minutes)` keeps every
individually paused timer's entry unchanged and advances every running,
unpaused timer's next fire to `now + minutes * 60`. -/
theorem snooze_semantics (m : TimerManager) (now minutes : Nat) (k : String) (t : ReminderTimer) :
    (t.is_running = true → t.is_paused = false →
      t.snooze now minutes = { t with next_reminder_time := some (now + minutes * 60) }) ∧
    (t.is_running = false ∨ t.is_paused = true → t.snooze now minutes = t) ∧
    ((k, t) ∈ m.timers → t.is_paused = true →
      (k, t) ∈ (m.snooze_all now minutes).timers) ∧
    ((k, t) ∈ m.timers → t.is_paused = false → t.is_running = true →
      (k, { t with next_reminder_time := some (now + minutes * 60) })
        ∈ (m.snooze_all now minutes).timers) := by
  refine ⟨?_, ?_, ?_, ?_⟩
  · intro hr hp
    simp [ReminderTimer.snooze, hr, hp]
  · intro h
    rcases h with h | h <;> simp [ReminderTimer.snooze, h]
  · intro hmem hp
    have := List.mem_map_of_mem
      (fun kv : String × ReminderTimer =>
        (kv.1, if !kv.2.is_paused then kv.2.snooze now minutes else kv.2)) hmem
    simpa [TimerManager.snooze_all, hp] using this
  · intro hmem hp hr
    have := List.mem_map_of_mem
      (fun kv : String × ReminderTimer =>
        (kv.1, if !kv.2.is_paused then kv.2.snooze now minutes else kv.2)) hmem
    simpa [TimerManager.snooze_all, hp, ReminderTimer.snooze, hr] using this

/-- C5 (witness): `snooze_all(5)` at `now = 0` on a manager whose blink timer
is running and whose water timer is paused while running keeps the water
entry unchanged and advances the blink timer's next fire to `300`. -/
theorem snooze_semantics_witness :
    ("water", tC10) ∈ (TimerManager.mk [("blink", tBlinkSched), ("water", tC10)] false).timers ∧
      tC10.is_paused = true ∧
      ("water", tC10) ∈
        ((TimerManager.mk [("blink", tBlinkSched), ("water", tC10)] false).snooze_all 0 5).timers ∧
      ("blink", { tBlinkSched with next_reminder_time := some (0 + 5 * 60) }) ∈
        ((TimerManager.mk [("blink", tBlinkSched), ("water", tC10)] false).snooze_all 0 5).timers :=
  ⟨by decide, by decide,
    (snooze_semantics (TimerManager.mk [("blink", tBlinkSched), ("water", tC10)] false)
        0 5 "water" tC10).2.2.1 (by decide) (by decide),
    (snooze_semantics (TimerManager.mk [("blink", tBlinkSched), ("water", tC10)] false)
        0 5 "blink" tBlinkSched).2.2.2 (by decide) (by decide) (by decide)⟩

/-- C6: after any sequence of pause-related operations, `resume_all()` leaves
`is_global_paused` false and clears the `is_paused` flag of every registered
timer, including timers that were individually paused before the most recent
`pause_all()`. -/
theorem resume_all_clears_pauses (m0 : TimerManager) (ops : List PauseOp) :
    ((applyPauseOps m0 ops).resume_all).is_global_paused = false ∧
      ∀ k t, (k, t) ∈ ((applyPauseOps m0 ops).resume_all).timers → t.is_paused = false := by
  refine ⟨rfl, ?_⟩
  intro k t hmem
  simp only [TimerManager.resume_all, List.mem_map] at hmem
  obtain ⟨kv, _, heq⟩ := hmem
  have : kv.2.resume = t := congrArg Prod.snd heq
  rw [← this]
  rfl

/-- C6 (witness): applied to `mC1` after pausing blink individually and then
running `pause_all`, `resume_all` clears the blink timer's pause flag. -/
theorem resume_all_clears_pauses_witness :
    ("blink", (tBlinkSched.pause).pause.resume) ∈
        ((applyPauseOps mC1 [PauseOp.pauseTimer "blink", PauseOp.pauseAll]).resume_all).timers ∧
      ((tBlinkSched.pause).pause.resume).is_paused = false :=
  ⟨by decide,
    (resume_all_clears_pauses mC1 [PauseOp.pauseTimer "blink", PauseOp.pauseAll]).2
      "blink" ((tBlinkSched.pause).pause.resume) (by decide)⟩

/-- C9: `start()` on an already-running timer is a no-op: the state, the
scheduled fire and the ghost count of spawned polling loops are unchanged. -/
theorem start_idempotent (t : ReminderTimer) (h : t.is_running = true) :
    t.start = t := by
  simp [ReminderTimer.start, h]

/-- C9 (witness): starting the already-started blink timer again changes
nothing. -/
theorem start_idempotent_witness :
    tBlinkStarted.is_running = true ∧ tBlinkStarted.start = tBlinkStarted :=
  ⟨by decide, start_idempotent tBlinkStarted (by decide)⟩

/-- C10 (counterexample): the claim fails as stated for `start_all()`.  A
timer paused individually while running keeps its `is_paused` flag across
`start_all()`, because `start()` is a no-op on a running timer; so a pause
flag can survive `start_all()` even though `is_global_paused` is reset. -/
theorem start_all_keeps_pause_cex :
    (mC10.start_all).is_global_paused = false ∧
      (mC10.start_all).get_timer "water" = some tC10 ∧
      tC10.is_paused = true ∧ tC10.is_running = true := by
  decide

/-- C10 (amended): `stop()` resets `is_paused` in addition to clearing
`is_running`; `stop_all()` resets `is_global_paused` and clears every
registered timer's pause flag; `start_all()` resets `is_global_paused` and
clears `is_paused` only of timers that were not already running — a running,
individually paused timer keeps its pause flag across `start_all()`. -/
theorem stop_and_bulk_clear_pause (t : ReminderTimer) (m : TimerManager)
    (k : String) (t2 : ReminderTimer) :
    (t.stop).is_paused = false ∧ (t.stop).is_running = false ∧
    (m.stop_all).is_global_paused = false ∧
    (∀ k3 t3, (k3, t3) ∈ (m.stop_all).timers → t3.is_paused = false ∧ t3.is_running = false) ∧
    (m.start_all).is_global_paused = false ∧
    ((k, t2) ∈ m.timers → (k, t2.start) ∈ (m.start_all).timers) ∧
    (t2.is_running = false → (t2.start).is_paused = false) := by
  refine ⟨rfl, rfl, rfl, ?_, rfl, ?_, ?_⟩
  · intro k3 t3 hmem
    simp only [TimerManager.stop_all, List.mem_map] at hmem
    obtain ⟨kv, _, heq⟩ := hmem
    have : kv.2.stop = t3 := congrArg Prod.snd heq
    rw [← this]
    exact ⟨rfl, rfl⟩
  · intro hmem
    exact List.mem_map_of_mem (fun kv : String × ReminderTimer => (kv.1, kv.2.start)) hmem
  · intro hnr
    simp [ReminderTimer.start, hnr]

/-- C10 (witness): applied to the paused-while-running water timer and the
manager `mC10`: its `stop` clears both flags, `stop_all` clears the pause
flag of the stopped water timer, and `start_all` maps the registered entry
through `start`. -/
theorem stop_and_bulk_clear_pause_witness :
    (tC10.stop).is_paused = false ∧
      ("water", tC10.stop) ∈ (mC10.stop_all).timers ∧ (tC10.stop).is_paused = false ∧
      ("water", tC10.start) ∈ (mC10.start_all).timers :=
  ⟨(stop_and_bulk_clear_pause tC10 mC10 "water" tC10).1,
    by decide,
    ((stop_and_bulk_clear_pause tC10 mC10 "water" tC10).2.2.2.1 "water" tC10.stop
      (by decide)).1,
    (stop_and_bulk_clear_pause tC10 mC10 "water" tC10).2.2.2.2.2.1 (by decide)⟩

/-- C7: for every valid configuration — one in normalized form, as
`_load_config` produces and `ConfigManager` holds — serialize, deserialize,
serialize is stable: normalizing an already-normalized document is the
identity, so writing it, loading it back and writing again reproduces the
same file; moreover every normalization result has all known global and
per-type fields present (missing fields were backfilled with defaults), and
normalization tolerates unknown extra fields, both at top level and inside
the sections, without error. -/
theorem config_round_trip (d c : JObj) (h : normalize_config d = some c) :
    normalize_config c = some c ∧
    load_config (some (save_config c)) = c ∧
    save_config (load_config (some (save_config c))) = save_config c ∧
    (∃ G R, c = [(ConfigSections.GLOBAL, .jobj G), (ConfigSections.REMINDERS, .jobj R)] ∧
      (∀ kv ∈ get_default_global_config, (alookup kv.1 G).isSome) ∧
      ∀ rt ∈ ALL_REMINDER_TYPES, ∃ o, alookup rt R = some (.jobj o) ∧
        ∀ kv ∈ get_default_reminder_config rt, (alookup kv.1 o).isSome) ∧
    (∀ (g2 r2 rest : JObj),
      (∀ rt ∈ ALL_REMINDER_TYPES, ∀ v, alookup rt r2 = some v → (asObj v).isSome) →
      (normalize_config ((ConfigSections.GLOBAL, JValue.jobj g2)
        :: (ConfigSections.REMINDERS, JValue.jobj r2) :: rest)).isSome) := by
  have hidem := normalize_config_idem d c h
  have hload : load_config (some (save_config c)) = c := by
    simp [load_config, save_config, hidem]
  refine ⟨hidem, hload, by rw [hload], ?_, ?_⟩
  · obtain ⟨g, rc, R, _, _, hR, hc⟩ := normalize_config_shape d c h
    refine ⟨dunion get_default_global_config g, R, hc, ?_, ?_⟩
    · intro kv hkv
      rw [dunion_alookup_left get_default_global_config g kv.1 kv.2
        default_global_keys_nodup (by simpa using hkv)]
      rfl
    · intro rt hrt
      obtain ⟨cur, hcur⟩ :=
        normalize_reminders_lookup ALL_REMINDER_TYPES rc R (by decide) hR rt hrt
      refine ⟨dunion (get_default_reminder_config rt) cur, hcur, ?_⟩
      intro kv hkv
      rw [dunion_alookup_left (get_default_reminder_config rt) cur kv.1 kv.2
        (default_reminder_keys_nodup rt) (by simpa using hkv)]
      rfl
  · intro g2 r2 rest hr2
    have hsec : config_is_sectioned ((ConfigSections.GLOBAL, JValue.jobj g2)
        :: (ConfigSections.REMINDERS, JValue.jobj r2) :: rest) = true := by
      simp [config_is_sectioned, dcontains, alookup]
    have hgp : global_part ((ConfigSections.GLOBAL, JValue.jobj g2)
        :: (ConfigSections.REMINDERS, JValue.jobj r2) :: rest) = .jobj g2 := by
      simp [global_part, hsec, dget, alookup]
    have hne : ConfigSections.GLOBAL ≠ ConfigSections.REMINDERS := by decide
    have hrp : reminders_part ((ConfigSections.GLOBAL, JValue.jobj g2)
        :: (ConfigSections.REMINDERS, JValue.jobj r2) :: rest) = .jobj r2 := by
      simp [reminders_part, hsec, dget, alookup, hne]
    rw [normalize_config, hgp, hrp]
    dsimp only [asObj]
    have hrem : (normalize_reminders ALL_REMINDER_TYPES r2).isSome := by
      apply normalize_reminders_isSome
      intro rt hrt
      cases hv : alookup rt r2 with
      | none => simp [dget, hv, asObj]
      | some v =>
          have := hr2 rt hrt v hv
          simpa [dget, hv] using this
    obtain ⟨N, hN⟩ := Option.isSome_iff_exists.mp hrem
    rw [hN]
    rfl

/-- C7 (witness): the empty legacy file normalizes to the default
configuration, and normalizing the default configuration reproduces it
unchanged. -/
theorem config_round_trip_witness :
    normalize_config ([] : JObj) = some get_default_config ∧
      normalize_config get_default_config = some get_default_config :=
  ⟨rfl, (config_round_trip [] get_default_config rfl).1⟩

/-- C8: loading with no readable configuration file yields the default
configuration: intervals blink 20, walking 60, water 30, pranayama 120
minutes, global sound off, per-type sound on for all four types, global and
per-type text-to-speech on, nothing hidden (plus the default language choice
and empty last-run stamp). -/
theorem default_config_values :
    load_config none =
      [("global", .jobj
          [("sound_enabled", .jbool false),
           ("tts_enabled", .jbool true),
           ("tts_language", .jstr "auto"),
           ("last_run", .jnull)]),
       ("reminders", .jobj
          [("blink", .jobj
              [("interval_minutes", .jint 20), ("sound_enabled", .jbool true),
               ("tts_enabled", .jbool true), ("hidden", .jbool false)]),
           ("walking", .jobj
              [("interval_minutes", .jint 60), ("sound_enabled", .jbool true),
               ("tts_enabled", .jbool true), ("hidden", .jbool false)]),
           ("water", .jobj
              [("interval_minutes", .jint 30), ("sound_enabled", .jbool true),
               ("tts_enabled", .jbool true), ("hidden", .jbool false)]),
           ("pranayama", .jobj
              [("interval_minutes", .jint 120), ("sound_enabled", .jbool true),
               ("tts_enabled", .jbool true), ("hidden", .jbool false)])])] :=
  rfl

end NotifyMe
